import Mathlib

/-!
Verification of the appointment slot-scheduling engine and notification
dispatcher of the e-booklet backend.

The shallow embedding below translates the relevant Python code
(`backend/app/routes/appointments.py`, `backend/app/notifications/service.py`,
`backend/app/notifications/providers.py`) into Lean:

* `datetime` instants become total minute counts (`Nat`): a civil date is
  mapped to a day number with the standard days-from-civil algorithm and
  combined with the minute of day; `timedelta(minutes=d)` is `+ d`.
* The two `strptime` date formats (`"%Y-%m-%d"`, `"%B %d, %Y"`), the
  12-hour time format `"%I:%M %p"` and the slot-generation format
  `"%Y-%m-%d %H:%M"` are modelled character by character after CPython's
  `_strptime` regexes (field alternations such as `1[0-2]|0[1-9]|[1-9]`,
  whitespace runs in the format matching `\s+`, case-insensitive month
  names and AM/PM, full-string match, calendar validity check).
* Firestore collections become lists; the per-request handlers become
  pure functions from the stored state to (new state, HTTP-level result).
* The fire-and-forget notification block of a handler is modelled by an
  opaque outcome parameter that the handler pattern-matches the way the
  `try/except` does.
-/

namespace EBooklet

/-! ### Python string primitives -/

/-- Python `str.strip` / regex `\s` whitespace characters (ASCII). -/
def pyIsSpace (c : Char) : Bool :=
  c = ' ' || c = '\t' || c = '\n' || c = '\x0d' || c = '\x0b' || c = '\x0c'

/-- Trim whitespace from both ends of a character list (Python `str.strip`). -/
def trimList (l : List Char) : List Char :=
  ((l.dropWhile pyIsSpace).reverse.dropWhile pyIsSpace).reverse

/-- Python `time_str.strip()`. -/
def pyStrip (s : String) : String := ⟨trimList s.toList⟩

def isDigitCh (c : Char) : Bool := '0' ≤ c && c ≤ '9'

def digitVal (c : Char) : Nat := c.toNat - '0'.toNat

def digitsVal (l : List Char) : Nat := l.foldl (fun a c => 10 * a + digitVal c) 0

/-- Consume the literal `p` from the front of `l` (used for `-`, `:`, `,`,
month names, `am`/`pm`). -/
def dropLit : List Char → List Char → Option (List Char)
  | [], l => some l
  | _ :: _, [] => none
  | p :: ps, c :: cs => if c = p then dropLit ps cs else none

def containsL (needle : List Char) : List Char → Bool
  | [] => needle.isEmpty
  | c :: t => (dropLit needle (c :: t)).isSome || containsL needle t

/-- Python substring test `needle in hay`. -/
def strContains (needle hay : String) : Bool := containsL needle.toList hay.toList

/-! ### `strptime` field parsers

Each parser consumes a prefix of the character list and returns the parsed
value together with the remaining characters, mirroring the regexes CPython
compiles for the corresponding directive. -/

/-- `%Y`: exactly four digits. -/
def pYear : List Char → Option (Nat × List Char)
  | a :: b :: c :: d :: rest =>
    if isDigitCh a && isDigitCh b && isDigitCh c && isDigitCh d then
      some (digitsVal [a, b, c, d], rest)
    else none
  | _ => none

/-- A one- or two-digit field with value in `[lo, hi]`.  In every format
used by the code the directive is followed by a non-digit (separator,
whitespace or end of string), so taking the maximal digit run and
validating it is equivalent to the regex alternation
(`1[0-2]|0[1-9]|[1-9]` for `%m`/`%I`, `3[01]|[12]\d|0[1-9]|[1-9]` for
`%d`, `[0-5]\d|\d` for `%M`, `2[0-3]|[0-1]\d|\d` for `%H`). -/
def pRun2 (lo hi : Nat) (l : List Char) : Option (Nat × List Char) :=
  let run := l.takeWhile isDigitCh
  let rest := l.dropWhile isDigitCh
  if run.length = 0 ∨ 2 < run.length then none
  else
    let v := digitsVal run
    if lo ≤ v ∧ v ≤ hi then some (v, rest) else none

/-- A literal character of the format. -/
def pChar (c : Char) (l : List Char) : Option (List Char) :=
  match l with
  | c' :: rest => if c' = c then some rest else none
  | [] => none

/-- Whitespace in a `strptime` format matches `\s+`. -/
def pSpaces1 : List Char → Option (List Char)
  | c :: rest => if pyIsSpace c then some (rest.dropWhile pyIsSpace) else none
  | [] => none

/-- `%B` month names (matched case-insensitively on lowercased input). -/
def monthNames : List (String × Nat) :=
  [("january", 1), ("february", 2), ("march", 3), ("april", 4),
   ("may", 5), ("june", 6), ("july", 7), ("august", 8),
   ("september", 9), ("october", 10), ("november", 11), ("december", 12)]

def pMonthName (l : List Char) : Option (Nat × List Char) :=
  monthNames.foldr
    (fun nm acc =>
      match dropLit nm.1.toList l with
      | some rest => some (nm.2, rest)
      | none => acc)
    none

/-! ### Calendar arithmetic -/

def isLeap (y : Nat) : Bool := y % 4 = 0 && (y % 100 ≠ 0 || y % 400 = 0)

def daysInMonth (y m : Nat) : Nat :=
  if m = 2 then (if isLeap y then 29 else 28)
  else if m = 4 ∨ m = 6 ∨ m = 9 ∨ m = 11 then 30
  else 31

/-- `datetime` accepts years 1–9999 and checks the day against the month
length; `strptime` raises `ValueError` otherwise. -/
def validDate (y m d : Nat) : Bool :=
  1 ≤ y && 1 ≤ m && m ≤ 12 && 1 ≤ d && d ≤ daysInMonth y m

/-- Day number of a civil date (days-from-civil), strictly monotone in the
date; defined for `y ≥ 1`. -/
def daysFromCivil (y m d : Nat) : Nat :=
  let y' := if m ≤ 2 then y - 1 else y
  let era := y' / 400
  let yoe := y' % 400
  let mp := if m ≤ 2 then m + 9 else m - 3
  let doy := (153 * mp + 2) / 5 + (d - 1)
  let doe := yoe * 365 + yoe / 4 - yoe / 100 + doy
  era * 146097 + doe

/-! ### Date/time parsing as done by `parse_time_slot` and the slot view -/

/-- The `"%Y-%m-%d"` part: year, `-`, month, `-`, day, then calendar
validation; returns the day number and the unconsumed characters. -/
def parseYMDCore (l : List Char) : Option (Nat × List Char) :=
  match pYear l with
  | none => none
  | some (y, r1) =>
    match pChar '-' r1 with
    | none => none
    | some r2 =>
      match pRun2 1 12 r2 with
      | none => none
      | some (m, r3) =>
        match pChar '-' r3 with
        | none => none
        | some r4 =>
          match pRun2 1 31 r4 with
          | none => none
          | some (d, r5) =>
            if validDate y m d then some (daysFromCivil y m d, r5) else none

/-- `datetime.strptime(date_str, "%Y-%m-%d")`, as a day number. -/
def parseDateYMD (s : String) : Option Nat :=
  match parseYMDCore s.toList with
  | some (days, []) => some days
  | _ => none

/-- `datetime.strptime(date_str, "%B %d, %Y")`, as a day number. -/
def parseDateLong (s : String) : Option Nat :=
  let l := s.toList.map Char.toLower
  match pMonthName l with
  | none => none
  | some (m, r1) =>
    match pSpaces1 r1 with
    | none => none
    | some r2 =>
      match pRun2 1 31 r2 with
      | none => none
      | some (d, r3) =>
        match pChar ',' r3 with
        | none => none
        | some r4 =>
          match pSpaces1 r4 with
          | none => none
          | some r5 =>
            match pYear r5 with
            | some (y, []) => if validDate y m d then some (daysFromCivil y m d) else none
            | _ => none

/-- `datetime.strptime(time_str, "%I:%M %p")`, as a minute of day. -/
def parseTime12 (s : String) : Option Nat :=
  let l := s.toList.map Char.toLower
  match pRun2 1 12 l with
  | none => none
  | some (h, r1) =>
    match pChar ':' r1 with
    | none => none
    | some r2 =>
      match pRun2 0 59 r2 with
      | none => none
      | some (mi, r3) =>
        match pSpaces1 r3 with
        | none => none
        | some r4 =>
          let h24ofAm := if h = 12 then 0 else h
          let h24ofPm := if h = 12 then 12 else h + 12
          match dropLit "am".toList r4 with
          | some [] => some (h24ofAm * 60 + mi)
          | some _ => none
          | none =>
            match dropLit "pm".toList r4 with
            | some [] => some (h24ofPm * 60 + mi)
            | _ => none

/-- `parse_time_slot` (`appointments.py`): try `"%Y-%m-%d"`, then
`"%B %d, %Y"` for the date; strip and parse the time as `"%I:%M %p"`;
combine into an instant measured in minutes. `none` models the raised
`ValueError`. -/
def parse_time_slot (dateStr timeStr : String) : Option Nat :=
  match (parseDateYMD dateStr).orElse (fun _ => parseDateLong dateStr) with
  | none => none
  | some days =>
    match parseTime12 (pyStrip timeStr) with
    | none => none
    | some mins => some (days * 1440 + mins)

/-- `datetime.strptime(f"{date} {HH}:{MM}", "%Y-%m-%d %H:%M")` used by
`get_available_slots` to build the working-window bounds, as total
minutes. -/
def parseYMD_HM (s : String) : Option Nat :=
  match parseYMDCore s.toList with
  | none => none
  | some (days, r1) =>
    match pSpaces1 r1 with
    | none => none
    | some r2 =>
      match pRun2 0 23 r2 with
      | none => none
      | some (h, r3) =>
        match pChar ':' r3 with
        | none => none
        | some r4 =>
          match pRun2 0 59 r4 with
          | some (mi, []) => some (days * 1440 + h * 60 + mi)
          | _ => none

/-! ### Formatting (`strftime("%I:%M %p")`) -/

def pad2 (n : Nat) : String := if n < 10 then "0" ++ toString n else toString n

/-- `current_time.strftime("%I:%M %p")` for an instant in total minutes. -/
def fmtTime12 (totalMin : Nat) : String :=
  let m := totalMin % 1440
  let h := m / 60
  let mi := m % 60
  let h12 := if h % 12 = 0 then 12 else h % 12
  let suf := if h < 12 then "AM" else "PM"
  pad2 h12 ++ ":" ++ pad2 mi ++ " " ++ suf

/-! ### Conflict detector -/

/-- `is_time_slot_conflict` (`appointments.py`): half-open interval
overlap of two slots of the given duration. -/
def is_time_slot_conflict (slot1 slot2 : Nat) (durationMinutes : Nat := 30) : Bool :=
  let slot1End := slot1 + durationMinutes
  let slot2End := slot2 + durationMinutes
  decide (slot1 < slot2End) && decide (slot2 < slot1End)

/-! ### Data model -/

/-- A stored appointment document (collection `appointments`). -/
structure Appointment where
  id : String
  doctorId : String
  patientId : String
  patientName : String
  date : String
  time : String
  status : String
  patientEmail : Option String := none
  patientPhone : Option String := none
  statusNotes : Option String := none
deriving DecidableEq, Repr

/-- One entry of the `conflicts` list returned by the availability check. -/
structure Conflict where
  appointment_id : String
  patient_name : String
  time : String
  status : String
deriving DecidableEq, Repr

/-- Python truthiness of an optional string (`None` and `""` are falsy). -/
def truthyOptStr (o : Option String) : Bool :=
  match o with
  | some s => !(s == "")
  | none => false

/-- HTTP-level failures raised by the appointment routes. -/
inductive ApiError where
  | badRequest (detail : String)
  | notFound (detail : String)
  | forbidden (detail : String)
  | conflict409 (conflicts : List Conflict)
  | internal (detail : String)
deriving DecidableEq, Repr

/-- `appointment.get('status') in ['cancelled', 'rejected']`. -/
def isSkippedStatus (s : String) : Bool := s == "cancelled" || s == "rejected"

/-! ### Availability check (`check_time_slot_availability`) -/

/-- One iteration of the conflict-collecting loop of
`check_time_slot_availability`: consider only the doctor's appointments
(the Firestore query filter), skip cancelled/rejected ones and ones
whose date/time fail to parse, and emit a conflict entry when the stored
slot overlaps the requested one. -/
def conflictScanStep (doctorId : String) (requested : Nat) (a : Appointment) :
    Option Conflict :=
  if a.doctorId == doctorId then
    if isSkippedStatus a.status then none
    else
      match parse_time_slot a.date a.time with
      | none => none
      | some slot =>
        if is_time_slot_conflict requested slot 30 then
          some ⟨a.id, a.patientName, a.time, a.status⟩
        else none
  else none

/-- The conflict-collecting loop of `check_time_slot_availability`. -/
def conflictScan (appts : List Appointment) (doctorId : String) (requested : Nat) :
    List Conflict :=
  appts.filterMap (conflictScanStep doctorId requested)

structure AvailabilityResult where
  available : Bool
  conflicts : List Conflict
deriving DecidableEq, Repr

/-- `POST /check-availability`: parse the requested slot (a failure is the
`ValueError` → 400 path), then report availability and the conflicting
appointments. -/
def check_time_slot_availability (appts : List Appointment)
    (doctorId dateStr timeStr : String) : Except ApiError AvailabilityResult :=
  match parse_time_slot dateStr timeStr with
  | none => .error (.badRequest "Invalid date or time format")
  | some requested =>
    let conflicts := conflictScan appts doctorId requested
    if conflicts.isEmpty then .ok ⟨true, []⟩ else .ok ⟨false, conflicts⟩

/-! ### Booking (`book_appointment`) -/

structure BookRequest where
  doctor_id : String
  doctor_name : String
  patient_name : String
  patient_email : String
  appointment_date : String
  appointment_time : String
  reason : Option String := none
  patient_phone : Option String := none
deriving DecidableEq, Repr

/-- The appointment document written by `book_appointment`. -/
def mkAppointment (req : BookRequest) (uid newId : String) : Appointment :=
  { id := newId
    doctorId := req.doctor_id
    patientId := uid
    patientName := req.patient_name
    date := req.appointment_date
    time := req.appointment_time
    status := "pending"
    patientEmail := some req.patient_email
    patientPhone := req.patient_phone
    statusNotes := none }

/-- `POST /book`: run the availability check internally, refuse with a 409
carrying the conflict list when unavailable, otherwise persist a new
`pending` appointment and attempt the notification block, whose outcome
(`notify`) is swallowed either way. Returns the new stored list and the
HTTP result. -/
def book_appointment (appts : List Appointment) (req : BookRequest)
    (uid newId : String) (notify : Except String Unit) :
    List Appointment × Except ApiError (String × Appointment) :=
  match check_time_slot_availability appts req.doctor_id
      req.appointment_date req.appointment_time with
  | .error e => (appts, .error e)
  | .ok availability =>
    if !availability.available then
      (appts, .error (.conflict409 availability.conflicts))
    else
      let appt := mkAppointment req uid newId
      let appts' := appts ++ [appt]
      match notify with
      | .ok _ => (appts', .ok (newId, appt))
      | .error _ => (appts', .ok (newId, appt))

/-! ### Slot listing (`get_available_slots`) -/

structure Slot where
  time : String
  dt : Nat
  available : Bool
  appointment_id : Option String := none
  status : Option String := none
deriving DecidableEq, Repr

/-- The slot dictionaries of the response (the internal `datetime` field
is removed before returning). -/
structure SlotView where
  time : String
  available : Bool
  appointment_id : Option String
  status : Option String
deriving DecidableEq, Repr

structure SlotsResult where
  date : String
  doctor_id : String
  slots : List SlotView
  total_slots : Nat
  available_slots : Nat
deriving DecidableEq, Repr

/-- The `while current_time < end_time` generation loop: slots every 30
minutes from the start bound (exclusive of the end bound). -/
def genSlots (startMin endMin : Nat) : List Slot :=
  (List.range ((endMin - startMin + 29) / 30)).map fun i =>
    let t := startMin + 30 * i
    { time := fmtTime12 t, dt := t, available := true }

/-- One iteration of the marking loop of `get_available_slots`: skip
cancelled/rejected appointments, apply the substring date filter
(`date in appointment_date or appointment_date in date`), skip
appointments whose date/time fail to parse, and mark every overlapping
slot unavailable with the appointment's id and status. -/
def markAppointment (slots : List Slot) (date : String) (a : Appointment) : List Slot :=
  if isSkippedStatus a.status then slots
  else if strContains date a.date || strContains a.date date then
    match parse_time_slot a.date a.time with
    | none => slots
    | some adt =>
      slots.map fun s =>
        if is_time_slot_conflict s.dt adt 30 then
          { s with available := false, appointment_id := some a.id, status := some a.status }
        else s
  else slots

def slotToView (s : Slot) : SlotView := ⟨s.time, s.available, s.appointment_id, s.status⟩

/-- `GET /available-slots/{doctor_id}?date=...`: generate the 09:00–17:00
half-hour slots for the date (the `strptime` of the window bounds failing
is the generic exception → 500 path), then mark booked slots against the
doctor's stored appointments. -/
def get_available_slots (appts : List Appointment) (doctorId date : String) :
    Except ApiError SlotsResult :=
  match parseYMD_HM (date ++ " 09:00"), parseYMD_HM (date ++ " 17:00") with
  | some startMin, some endMin =>
    let init := genSlots startMin endMin
    let slots := appts.foldl
      (fun sl a => if a.doctorId == doctorId then markAppointment sl date a else sl) init
    let views := slots.map slotToView
    .ok { date := date
          doctor_id := doctorId
          slots := views
          total_slots := views.length
          available_slots := (views.filter (·.available)).length }
  | _, _ => .error (.internal "Failed to get available slots")

/-! ### Status update (`update_appointment_status`) -/

structure StatusUpdateRequest where
  status : String
  notes : Option String := none
deriving DecidableEq, Repr

/-- `appointment_ref.get()` by document id. -/
def findAppt (appts : List Appointment) (appointmentId : String) : Option Appointment :=
  appts.find? fun a => a.id == appointmentId

/-- Role lookup in the `users` collection. -/
def lookupRole (users : List (String × String)) (uid : String) : Option String :=
  (users.find? fun p => p.1 == uid).map (·.2)

/-- The document update performed on a permitted transition: overwrite
`status`, and set `statusNotes` only when `request.notes` is truthy. -/
def applyStatusUpdate (a : Appointment) (req : StatusUpdateRequest) : Appointment :=
  { a with
    status := req.status
    statusNotes := if truthyOptStr req.notes then req.notes else a.statusNotes }

/-- `PUT /{appointment_id}/status`: look up the appointment (404 if
missing) and the caller's user document (404 if missing); only a doctor
may set `approved`/`rejected` (403 otherwise); `cancelled` requires the
caller to be the appointment's patient or a doctor (403 otherwise); then
write the update and attempt the notification block, whose outcome
(`notify`) is swallowed either way. The appointment's current status is
never consulted. -/
def update_appointment_status (appts : List Appointment)
    (users : List (String × String)) (appointmentId : String)
    (req : StatusUpdateRequest) (uid : String) (notify : Except String Unit) :
    List Appointment × Except ApiError Appointment :=
  match findAppt appts appointmentId with
  | none => (appts, .error (.notFound "Appointment not found"))
  | some appt =>
    match lookupRole users uid with
    | none => (appts, .error (.notFound "User not found"))
    | some role =>
      if (req.status == "approved" || req.status == "rejected") && !(role == "doctor") then
        (appts, .error (.forbidden "Only doctors can approve or reject appointments"))
      else if req.status == "cancelled" && !(appt.patientId == uid) && !(role == "doctor") then
        (appts, .error (.forbidden "You can only cancel your own appointments"))
      else
        let appts' := appts.map fun a =>
          if a.id == appointmentId then applyStatusUpdate a req else a
        let updated := applyStatusUpdate appt req
        match notify with
        | .ok _ => (appts', .ok updated)
        | .error _ => (appts', .ok updated)

/-! ### Notification dispatcher (`notifications/service.py`) -/

/-- Recipient preference flags (`preferences.emailNotifications`,
`preferences.smsNotifications`); a missing key is `none`. -/
structure Prefs where
  emailNotifications : Option Bool := none
  smsNotifications : Option Bool := none
deriving DecidableEq, Repr

/-- A patient user document as read by the dispatcher. -/
structure PatientDoc where
  email : Option String := none
  phone : Option String := none
  preferences : Option Prefs := none
deriving DecidableEq, Repr

structure ChannelAttempts where
  email : Bool
  sms : Bool
deriving DecidableEq, Repr

/-- Channel applicability of `NotificationService.send_notification`:
`preferences.get("emailNotifications", True)`,
`preferences.get("smsNotifications", False)`, presence of the contact
field, and (for SMS) the provider constructed only when Twilio is
configured. -/
def sendNotificationChannels (patient : PatientDoc) (smsConfigured : Bool) :
    ChannelAttempts :=
  let prefs := patient.preferences.getD {}
  let emailEnabled := prefs.emailNotifications.getD true
  let smsEnabled := prefs.smsNotifications.getD false
  { email := emailEnabled && truthyOptStr patient.email
    sms := smsEnabled && truthyOptStr patient.phone && smsConfigured }

/-- Channel attempts made by the `book_appointment` notification block
(`appointments.py` lines 249–280): SMS whenever the request carries a
phone number, email whenever the confirmation template file exists; the
recipient's preference flags are never read. -/
def bookNotificationChannels (req : BookRequest) (templateExists : Bool) :
    ChannelAttempts :=
  { email := templateExists
    sms := truthyOptStr req.patient_phone }

/-- Python `a or b` on two optional strings. -/
def pyOr (a b : Option String) : Option String := if truthyOptStr a then a else b

/-- Channel attempts made by the `update_appointment_status` notification
block (`appointments.py` lines 521–582): nothing when the patient's user
document is missing; otherwise SMS whenever a phone number is available
(user document first, appointment fallback) and email whenever an email
address is available and the template file exists; preference flags are
never read. -/
def updateNotificationChannels (patientDoc : Option PatientDoc)
    (appt : Appointment) (templateExists : Bool) : ChannelAttempts :=
  match patientDoc with
  | none => { email := false, sms := false }
  | some p =>
    { email := truthyOptStr (pyOr p.email appt.patientEmail) && templateExists
      sms := truthyOptStr (pyOr p.phone appt.patientPhone) }

/-- Per-channel provider result dictionary
(`{success, messageId, provider, error}`). -/
structure ProviderResult where
  success : Bool
  messageId : Option String
  provider : String
  error : Option String
deriving DecidableEq, Repr

/-- The per-channel entries of the `results` dictionary built by
`send_notification`: `none` when the channel was skipped, otherwise the
provider result or the caught exception message. -/
structure NotifyResults where
  email : Option (Sum String ProviderResult)
  sms : Option (Sum String ProviderResult)
deriving DecidableEq, Repr

/-- `send_notification`: attempt each applicable channel inside its own
`try/except`, recording either the provider result or the caught error;
one channel's outcome is never consulted by the other. -/
def send_notification (patient : PatientDoc) (smsConfigured : Bool)
    (emailCall smsCall : Sum String ProviderResult) : NotifyResults :=
  let ch := sendNotificationChannels patient smsConfigured
  { email := if ch.email then some emailCall else none
    sms := if ch.sms then some smsCall else none }

/-! ### SMS provider (`notifications/providers.py`) -/

/-- The three Twilio settings; Python truthiness (`None`/`""` falsy). -/
structure TwilioSettings where
  accountSid : Option String := none
  authToken : Option String := none
  fromNumber : Option String := none
deriving DecidableEq, Repr

/-- `all([TWILIO_ACCOUNT_SID, TWILIO_AUTH_TOKEN, TWILIO_FROM_NUMBER])`. -/
def twilioConfigured (t : TwilioSettings) : Bool :=
  truthyOptStr t.accountSid && truthyOptStr t.authToken && truthyOptStr t.fromNumber

/-- Outcome of one invocation of `SMSProvider.send`'s body: the returned
dictionary together with the number of network (Twilio API) calls made. -/
structure SmsSendOutcome where
  result : ProviderResult
  networkCalls : Nat
deriving DecidableEq, Repr

/-- One execution of the body of `SMSProvider.send`: when Twilio is not
configured, return the failure dictionary immediately with no network
call; otherwise perform the API call (`netCall` is its outcome: a message
sid or a raised exception message, the latter caught and converted to a
failure dictionary). -/
def smsSendBody (t : TwilioSettings) (netCall : Except String String) : SmsSendOutcome :=
  if !twilioConfigured t then
    { result := { success := false, messageId := none, provider := "twilio",
                  error := some "SMS not configured" }
      networkCalls := 0 }
  else
    match netCall with
    | .ok sid =>
      { result := { success := true, messageId := some sid, provider := "twilio",
                    error := none }
        networkCalls := 1 }
    | .error e =>
      { result := { success := false, messageId := none, provider := "twilio",
                    error := some e }
        networkCalls := 1 }

/-- The `tenacity` retry wrapper (`stop_after_attempt(3)`): re-invoke the
body only when it raises (`Sum.inl`), up to the attempt budget; returns
the final outcome and the number of body invocations. -/
def tenacityRun (body : Nat → Sum String α) : Nat → Nat → Sum String α × Nat
  | 0, i => (.inl "no attempts permitted", i)
  | fuel + 1, i =>
    match body i with
    | .inr a => (.inr a, i + 1)
    | .inl e =>
      if fuel = 0 then (.inl e, i + 1) else tenacityRun body fuel (i + 1)

/-- `SMSProvider.send` as decorated: the body never raises (its `try`
covers everything and converts exceptions to failure dictionaries), so
the retry wrapper runs it exactly once. `netCalls i` is the outcome the
Twilio API would give on the i-th invocation. -/
def SMSProvider_send (t : TwilioSettings) (netCalls : Nat → Except String String) :
    Sum String SmsSendOutcome × Nat :=
  tenacityRun (fun i => Sum.inr (smsSendBody t (netCalls i))) 3 0

/-! ### Channel-applicability rule as the specification words it

These two definitions follow the specification text (not the code) and
exist only to be compared with the code-derived channel gating above:
"email is attempted iff the recipient has a usable email address and
(when preference data exists) `emailNotifications` is not explicitly
false; SMS is attempted iff a phone number is present and SMS is
configured and (when preference data exists) `smsNotifications` is not
explicitly false", with email defaulting to enabled and SMS to disabled
when preferences are absent. -/

/-- The specification's email-applicability rule. -/
def specEmailApplicable (p : PatientDoc) : Bool :=
  truthyOptStr p.email &&
    (match p.preferences with
     | none => true
     | some pr => !(pr.emailNotifications == some false))

/-- The specification's SMS-applicability rule. -/
def specSmsApplicable (p : PatientDoc) (configured : Bool) : Bool :=
  truthyOptStr p.phone && configured &&
    (match p.preferences with
     | none => false
     | some pr => !(pr.smsNotifications == some false))

/-! ### Analysis predicates used to relate the two conflict scans -/

/-- Whether appointment `a` makes `check_time_slot_availability` record a
conflict against the requested instant. -/
def checkBlocks (doctorId : String) (requested : Nat) (a : Appointment) : Bool :=
  a.doctorId == doctorId && !isSkippedStatus a.status &&
    (match parse_time_slot a.date a.time with
     | none => false
     | some slot => is_time_slot_conflict requested slot 30)

/-- Whether appointment `a` makes `get_available_slots` mark a slot with
start instant `sdt` unavailable (the same scan, plus the substring date
filter). -/
def blocksSlot (doctorId d : String) (a : Appointment) (sdt : Nat) : Bool :=
  a.doctorId == doctorId && !isSkippedStatus a.status &&
    (strContains d a.date || strContains a.date d) &&
    (match parse_time_slot a.date a.time with
     | none => false
     | some adt => is_time_slot_conflict sdt adt 30)

/-! ## Claims -/

/-- C3: the conflict detector returns `true` exactly when the two
half-open intervals `[a, a+d)` and `[b, b+d)` overlap, i.e. `a < b + d`
and `b < a + d`; on 30-minute slots, 09:00 and 09:30 of the same day do
not conflict while 09:00 and 09:15 do. -/
theorem conflict_detector_halfopen :
    (∀ a b d : Nat, 0 < d →
      (is_time_slot_conflict a b d = true ↔ a < b + d ∧ b < a + d)) ∧
    ((parse_time_slot "2025-11-03" "09:00 AM").bind (fun x =>
      (parse_time_slot "2025-11-03" "09:30 AM").map (fun y =>
        is_time_slot_conflict x y 30)) = some false) ∧
    ((parse_time_slot "2025-11-03" "09:00 AM").bind (fun x =>
      (parse_time_slot "2025-11-03" "09:15 AM").map (fun y =>
        is_time_slot_conflict x y 30)) = some true) := by
  refine ⟨fun a b d _ => ?_, by decide, by decide⟩
  simp [is_time_slot_conflict]

/-- Witness for C3 at concrete inputs: a positive duration with two
overlapping instants. -/
theorem conflict_detector_halfopen_witness :
    (0 : Nat) < 30 ∧ is_time_slot_conflict 540 555 30 = true :=
  ⟨by norm_num, (conflict_detector_halfopen.1 540 555 30 (by norm_num)).mpr
    (by norm_num)⟩

/-- C6: the outcome of the notification block (success or raised
exception) never changes what `book_appointment` or
`update_appointment_status` persists or returns: the exception is caught
and the operation still succeeds with the persisted appointment. -/
theorem notification_failure_swallowed :
    (∀ (appts : List Appointment) (req : BookRequest) (uid newId e : String),
        book_appointment appts req uid newId (.error e) =
          book_appointment appts req uid newId (.ok ())) ∧
    (∀ (appts : List Appointment) (users : List (String × String))
        (apptId : String) (req : StatusUpdateRequest) (uid e : String),
        update_appointment_status appts users apptId req uid (.error e) =
          update_appointment_status appts users apptId req uid (.ok ())) ∧
    (∀ (appts : List Appointment) (req : BookRequest) (uid newId e : String)
        (r : AvailabilityResult),
        check_time_slot_availability appts req.doctor_id
          req.appointment_date req.appointment_time = .ok r →
        r.available = true →
        book_appointment appts req uid newId (.error e) =
          (appts ++ [mkAppointment req uid newId],
            .ok (newId, mkAppointment req uid newId))) := by
  refine ⟨?_, ?_, ?_⟩
  · intro appts req uid newId e
    unfold book_appointment
    cases check_time_slot_availability appts req.doctor_id
        req.appointment_date req.appointment_time with
    | error e' => rfl
    | ok availability => rfl
  · intro appts users apptId req uid e
    unfold update_appointment_status
    cases findAppt appts apptId with
    | none => rfl
    | some appt =>
      cases lookupRole users uid with
      | none => rfl
      | some role => rfl
  · intro appts req uid newId e r hchk hav
    unfold book_appointment
    simp only [hchk, hav, Bool.not_true, Bool.false_eq_true, if_false]

/-- Witness for C6: booking into an empty store with a failing
notification dispatch still persists the appointment and reports
success. -/
theorem notification_failure_swallowed_witness :
    book_appointment []
        { doctor_id := "d1", doctor_name := "Dr", patient_name := "Quinn",
          patient_email := "q@example.com", appointment_date := "2025-11-03",
          appointment_time := "10:15 AM" } "p2" "new1" (.error "smtp down") =
      ([mkAppointment
          { doctor_id := "d1", doctor_name := "Dr", patient_name := "Quinn",
            patient_email := "q@example.com", appointment_date := "2025-11-03",
            appointment_time := "10:15 AM" } "p2" "new1"],
        .ok ("new1", mkAppointment
          { doctor_id := "d1", doctor_name := "Dr", patient_name := "Quinn",
            patient_email := "q@example.com", appointment_date := "2025-11-03",
            appointment_time := "10:15 AM" } "p2" "new1")) :=
  notification_failure_swallowed.2.2 []
    { doctor_id := "d1", doctor_name := "Dr", patient_name := "Quinn",
      patient_email := "q@example.com", appointment_date := "2025-11-03",
      appointment_time := "10:15 AM" } "p2" "new1" "smtp down"
    ⟨true, []⟩ rfl rfl

/-- C8 counterexample: with Twilio unconfigured, the per-channel result
returned by `SMSProvider.send` carries the error string
`"SMS not configured"`, not the literal `"not configured"` the claim
states. -/
theorem sms_unconfigured_error_string_cex :
    (smsSendBody ⟨none, none, none⟩ (.error "boom")).result ≠
      { success := false, messageId := none, provider := "twilio",
        error := some "not configured" } := by
  decide

/-- C8 (amended): with Twilio unconfigured, `SMSProvider.send` returns
immediately — a single body invocation (no retries consumed, since
nothing is raised) with zero network calls — yielding
`{success: false, messageId: none, provider: "twilio",
error: "SMS not configured"}`; and in `send_notification` the email
channel's recorded result never depends on the SMS channel's outcome. -/
theorem sms_unconfigured_immediate :
    (∀ (t : TwilioSettings) (netCalls : Nat → Except String String),
        twilioConfigured t = false →
        SMSProvider_send t netCalls =
          (Sum.inr { result := { success := false, messageId := none,
                                 provider := "twilio",
                                 error := some "SMS not configured" },
                     networkCalls := 0 }, 1)) ∧
    (∀ (p : PatientDoc) (cfg : Bool) (e s1 s2 : Sum String ProviderResult),
        (send_notification p cfg e s1).email =
          (send_notification p cfg e s2).email) := by
  constructor
  · intro t netCalls h
    simp [SMSProvider_send, tenacityRun, smsSendBody, h]
  · intro p cfg e s1 s2
    rfl

/-- Witness for C8 at a concrete unconfigured provider. -/
theorem sms_unconfigured_immediate_witness :
    SMSProvider_send ⟨none, none, none⟩ (fun _ => .error "boom") =
      (Sum.inr { result := { success := false, messageId := none,
                             provider := "twilio",
                             error := some "SMS not configured" },
                 networkCalls := 0 }, 1) :=
  sms_unconfigured_immediate.1 ⟨none, none, none⟩ (fun _ => .error "boom") rfl

/-- C1 counterexample: a status update on an appointment whose status is
the terminal `rejected` is not refused with `Forbidden` — the doctor's
`approved` request succeeds and overwrites the stored status. -/
theorem update_terminal_not_forbidden_cex :
    (update_appointment_status
        [{ id := "a1", doctorId := "d1", patientId := "p1", patientName := "Pat",
           date := "2025-11-03", time := "10:00 AM", status := "rejected" }]
        [("d1", "doctor")] "a1" { status := "approved" } "d1" (.ok ())).2 =
      .ok { id := "a1", doctorId := "d1", patientId := "p1", patientName := "Pat",
            date := "2025-11-03", time := "10:00 AM", status := "approved" } ∧
    ((update_appointment_status
        [{ id := "a1", doctorId := "d1", patientId := "p1", patientName := "Pat",
           date := "2025-11-03", time := "10:00 AM", status := "rejected" }]
        [("d1", "doctor")] "a1" { status := "approved" } "d1" (.ok ())).1.map
          (·.status)) = ["approved"] := by
  constructor <;> rfl

/-- C1 (amended): `update_appointment_status` never consults the
appointment's current status: whenever the role/ownership guards on the
requested status pass, the update succeeds and overwrites the stored
status with the requested one — for any current status, terminal
(`rejected`, `cancelled`, `completed`) or not; in particular an
`approved` appointment may still be moved to `cancelled` or
`completed`. -/
theorem update_status_ignores_current_status :
    ∀ (appts : List Appointment) (users : List (String × String))
      (apptId : String) (req : StatusUpdateRequest) (uid : String)
      (appt : Appointment) (role : String) (n : Except String Unit),
      findAppt appts apptId = some appt →
      lookupRole users uid = some role →
      ((req.status == "approved" || req.status == "rejected") &&
        !(role == "doctor")) = false →
      (req.status == "cancelled" && !(appt.patientId == uid) &&
        !(role == "doctor")) = false →
      update_appointment_status appts users apptId req uid n =
        (appts.map fun a => if a.id == apptId then applyStatusUpdate a req else a,
          .ok (applyStatusUpdate appt req)) ∧
      (applyStatusUpdate appt req).status = req.status := by
  intro appts users apptId req uid appt role n h1 h2 h3 h4
  refine ⟨?_, rfl⟩
  unfold update_appointment_status
  rw [h1, h2]
  simp only [h3, h4, Bool.false_eq_true, if_false]
  cases n <;> rfl

/-- Witness for C1: a doctor moves a `cancelled` (terminal) appointment
to `completed`; the update succeeds. -/
theorem update_status_ignores_current_status_witness :
    update_appointment_status
        [{ id := "a1", doctorId := "d1", patientId := "p1", patientName := "Pat",
           date := "2025-11-03", time := "10:00 AM", status := "cancelled" }]
        [("d1", "doctor")] "a1" { status := "completed" } "d1" (.ok ()) =
      ([{ id := "a1", doctorId := "d1", patientId := "p1", patientName := "Pat",
          date := "2025-11-03", time := "10:00 AM", status := "completed" }],
        .ok { id := "a1", doctorId := "d1", patientId := "p1", patientName := "Pat",
              date := "2025-11-03", time := "10:00 AM", status := "completed" }) ∧
    (applyStatusUpdate
        { id := "a1", doctorId := "d1", patientId := "p1", patientName := "Pat",
          date := "2025-11-03", time := "10:00 AM", status := "cancelled" }
        { status := "completed" }).status = "completed" :=
  update_status_ignores_current_status _ _ "a1" { status := "completed" } "d1"
    { id := "a1", doctorId := "d1", patientId := "p1", patientName := "Pat",
      date := "2025-11-03", time := "10:00 AM", status := "cancelled" }
    "doctor" (.ok ()) rfl rfl rfl rfl

/-- C5: status-update authorization: an unknown appointment id fails with
`NotFound`; `approved`/`rejected` requested by a non-doctor fails with
`Forbidden`; `cancelled` requested by a caller who is neither the
appointment's patient nor a doctor fails with `Forbidden`; a patient
cancelling their own `pending` appointment succeeds. -/
theorem status_update_authorization :
    (∀ (appts : List Appointment) (users : List (String × String))
        (apptId : String) (req : StatusUpdateRequest) (uid : String)
        (n : Except String Unit),
        findAppt appts apptId = none →
        update_appointment_status appts users apptId req uid n =
          (appts, .error (.notFound "Appointment not found"))) ∧
    (∀ (appts : List Appointment) (users : List (String × String))
        (apptId : String) (req : StatusUpdateRequest) (uid : String)
        (n : Except String Unit) (appt : Appointment) (role : String),
        findAppt appts apptId = some appt →
        lookupRole users uid = some role →
        (req.status == "approved" || req.status == "rejected") = true →
        (role == "doctor") = false →
        update_appointment_status appts users apptId req uid n =
          (appts, .error (.forbidden "Only doctors can approve or reject appointments"))) ∧
    (∀ (appts : List Appointment) (users : List (String × String))
        (apptId : String) (req : StatusUpdateRequest) (uid : String)
        (n : Except String Unit) (appt : Appointment) (role : String),
        findAppt appts apptId = some appt →
        lookupRole users uid = some role →
        req.status = "cancelled" →
        (appt.patientId == uid) = false →
        (role == "doctor") = false →
        update_appointment_status appts users apptId req uid n =
          (appts, .error (.forbidden "You can only cancel your own appointments"))) ∧
    (∀ (appts : List Appointment) (users : List (String × String))
        (apptId : String) (req : StatusUpdateRequest) (uid : String)
        (n : Except String Unit) (appt : Appointment),
        findAppt appts apptId = some appt →
        appt.status = "pending" →
        (appt.patientId == uid) = true →
        lookupRole users uid = some "patient" →
        req.status = "cancelled" →
        (update_appointment_status appts users apptId req uid n).2 =
          .ok (applyStatusUpdate appt req)) := by
  refine ⟨?_, ?_, ?_, ?_⟩
  · intro appts users apptId req uid n h
    unfold update_appointment_status
    rw [h]
  · intro appts users apptId req uid n appt role h1 h2 h3 h4
    unfold update_appointment_status
    rw [h1, h2]
    simp [h3, h4]
  · intro appts users apptId req uid n appt role h1 h2 h3 h4 h5
    unfold update_appointment_status
    rw [h1, h2]
    simp [h3, h4, h5,
      show (("cancelled" : String) == "approved") = false from rfl,
      show (("cancelled" : String) == "rejected") = false from rfl,
      show (("cancelled" : String) == "cancelled") = true from rfl]
  · intro appts users apptId req uid n appt h1 _h2 h3 h4 h5
    unfold update_appointment_status
    rw [h1, h4]
    simp only [h3, h5,
      show (("cancelled" : String) == "approved") = false from rfl,
      show (("cancelled" : String) == "rejected") = false from rfl,
      show (("cancelled" : String) == "cancelled") = true from rfl,
      show (("patient" : String) == "doctor") = false from rfl,
      Bool.false_or, Bool.false_and, Bool.not_true, Bool.true_and,
      Bool.and_false, Bool.false_eq_true, if_false]
    cases n <;> rfl

/-- Witness for C5: an unknown id, a patient trying to approve, a
stranger trying to cancel someone else's appointment, and a patient
cancelling their own pending appointment, on concrete stores. -/
theorem status_update_authorization_witness :
    update_appointment_status [] [] "missing" { status := "approved" } "u1" (.ok ()) =
      ([], .error (.notFound "Appointment not found")) ∧
    update_appointment_status
        [{ id := "a1", doctorId := "d1", patientId := "p1", patientName := "Pat",
           date := "2025-11-03", time := "10:00 AM", status := "pending" }]
        [("p1", "patient")] "a1" { status := "approved" } "p1" (.ok ()) =
      ([{ id := "a1", doctorId := "d1", patientId := "p1", patientName := "Pat",
          date := "2025-11-03", time := "10:00 AM", status := "pending" }],
        .error (.forbidden "Only doctors can approve or reject appointments")) ∧
    update_appointment_status
        [{ id := "a1", doctorId := "d1", patientId := "p1", patientName := "Pat",
           date := "2025-11-03", time := "10:00 AM", status := "pending" }]
        [("p2", "patient")] "a1" { status := "cancelled" } "p2" (.ok ()) =
      ([{ id := "a1", doctorId := "d1", patientId := "p1", patientName := "Pat",
          date := "2025-11-03", time := "10:00 AM", status := "pending" }],
        .error (.forbidden "You can only cancel your own appointments")) ∧
    (update_appointment_status
        [{ id := "a1", doctorId := "d1", patientId := "p1", patientName := "Pat",
           date := "2025-11-03", time := "10:00 AM", status := "pending" }]
        [("p1", "patient")] "a1" { status := "cancelled" } "p1" (.ok ())).2 =
      .ok { id := "a1", doctorId := "d1", patientId := "p1", patientName := "Pat",
            date := "2025-11-03", time := "10:00 AM", status := "cancelled" } :=
  ⟨status_update_authorization.1 [] [] "missing" { status := "approved" } "u1"
      (.ok ()) rfl,
    status_update_authorization.2.1 _ _ "a1" { status := "approved" } "p1" (.ok ())
      { id := "a1", doctorId := "d1", patientId := "p1", patientName := "Pat",
        date := "2025-11-03", time := "10:00 AM", status := "pending" }
      "patient" rfl rfl rfl rfl,
    status_update_authorization.2.2.1 _ _ "a1" { status := "cancelled" } "p2" (.ok ())
      { id := "a1", doctorId := "d1", patientId := "p1", patientName := "Pat",
        date := "2025-11-03", time := "10:00 AM", status := "pending" }
      "patient" rfl rfl rfl rfl rfl,
    status_update_authorization.2.2.2 _ _ "a1" { status := "cancelled" } "p1" (.ok ())
      { id := "a1", doctorId := "d1", patientId := "p1", patientName := "Pat",
        date := "2025-11-03", time := "10:00 AM", status := "pending" }
      rfl rfl rfl rfl rfl⟩

/-- C4: when the requested slot conflicts with an existing
non-cancelled/non-rejected appointment of the doctor, `book_appointment`
— which runs the availability check itself, taking no client-supplied
flag — returns the 409 conflict error carrying the conflict list and
leaves the stored appointment set unchanged. -/
theorem booking_conflict_rejected :
    ∀ (appts : List Appointment) (req : BookRequest) (uid newId : String)
      (n : Except String Unit) (t : Nat),
      parse_time_slot req.appointment_date req.appointment_time = some t →
      conflictScan appts req.doctor_id t ≠ [] →
      book_appointment appts req uid newId n =
        (appts, .error (.conflict409 (conflictScan appts req.doctor_id t))) := by
  intro appts req uid newId n t hp hc
  unfold book_appointment check_time_slot_availability
  rw [hp]
  simp [List.isEmpty_iff, hc]

/-- Witness for C4: booking a 10:15 AM slot against a pending 10:00 AM
appointment of the same doctor is refused with the conflict list and no
write. -/
theorem booking_conflict_rejected_witness :
    book_appointment
        [{ id := "a1", doctorId := "d1", patientId := "p1", patientName := "Pat",
           date := "2025-11-03", time := "10:00 AM", status := "pending" }]
        { doctor_id := "d1", doctor_name := "Dr", patient_name := "Quinn",
          patient_email := "q@example.com", appointment_date := "2025-11-03",
          appointment_time := "10:15 AM" } "p2" "new1" (.ok ()) =
      ([{ id := "a1", doctorId := "d1", patientId := "p1", patientName := "Pat",
          date := "2025-11-03", time := "10:00 AM", status := "pending" }],
        .error (.conflict409 [⟨"a1", "Pat", "10:00 AM", "pending"⟩])) :=
  booking_conflict_rejected _
    { doctor_id := "d1", doctor_name := "Dr", patient_name := "Quinn",
      patient_email := "q@example.com", appointment_date := "2025-11-03",
      appointment_time := "10:15 AM" } "p2" "new1" (.ok ()) 1065403335 rfl
    (by decide)

/-- C7 counterexample: the notification path triggered by booking does
not follow the claimed applicability rule: for a patient whose
`smsNotifications` preference is explicitly false (with SMS configured
and a phone number present), the claimed rule says SMS must not be
attempted, yet `book_appointment`'s notification block invokes the SMS
channel purely because the request carries a phone number. -/
theorem booking_ignores_preferences_cex :
    (bookNotificationChannels
        { doctor_id := "d1", doctor_name := "Dr", patient_name := "Pat",
          patient_email := "pat@example.com", appointment_date := "2025-11-03",
          appointment_time := "10:00 AM",
          patient_phone := some "+15550100" } true).sms = true ∧
    specSmsApplicable
        { email := some "pat@example.com", phone := some "+15550100",
          preferences := some { emailNotifications := some true,
                                smsNotifications := some false } } true = false := by
  decide

/-- C7 (amended): the dispatcher `send_notification` follows the rule:
email is attempted iff the recipient's email is present and
`emailNotifications` is not explicitly false (enabled by default), and
SMS is attempted iff the phone is present, Twilio is configured and
`smsNotifications` is explicitly true (disabled by default).  The
notification blocks of the booking and status-update routes do not
consult preference flags at all: booking attempts SMS iff the request
carries a phone number and email iff the template file exists; the
status-update block attempts SMS iff a phone number is available and
email iff an email address is available and the template file exists. -/
theorem dispatcher_channel_rule :
    (∀ (p : PatientDoc) (cfg : Bool),
        (sendNotificationChannels p cfg).email = specEmailApplicable p) ∧
    (∀ (p : PatientDoc) (cfg : Bool),
        (sendNotificationChannels p cfg).sms =
          (truthyOptStr p.phone && cfg &&
            ((p.preferences.getD {}).smsNotifications == some true))) ∧
    (∀ (req : BookRequest) (tmpl : Bool),
        bookNotificationChannels req tmpl =
          { email := tmpl, sms := truthyOptStr req.patient_phone }) ∧
    (∀ (pd : PatientDoc) (appt : Appointment) (tmpl : Bool),
        updateNotificationChannels (some pd) appt tmpl =
          { email := truthyOptStr (pyOr pd.email appt.patientEmail) && tmpl,
            sms := truthyOptStr (pyOr pd.phone appt.patientPhone) }) := by
  refine ⟨?_, ?_, fun req tmpl => rfl, fun pd appt tmpl => rfl⟩
  · intro p cfg
    rcases p with ⟨e, ph, pr⟩
    rcases pr with _ | ⟨em, sm⟩
    · simp [sendNotificationChannels, specEmailApplicable, Bool.and_comm]
    · rcases em with _ | b
      · simp [sendNotificationChannels, specEmailApplicable, Bool.and_comm]
      · cases b <;>
          simp [sendNotificationChannels, specEmailApplicable, Bool.and_comm]
  · intro p cfg
    rcases p with ⟨e, ph, pr⟩
    rcases pr with _ | ⟨em, sm⟩
    · simp [sendNotificationChannels]
    · rcases sm with _ | b
      · simp [sendNotificationChannels]
      · cases b <;>
          simp [sendNotificationChannels, Bool.and_comm, Bool.and_assoc,
            Bool.and_left_comm]

/-- C10: a stored appointment whose date or time fails to parse
contributes nothing to either the availability check or the slot
listing: removing it changes neither result, so it never appears in a
conflicts list, never blocks a slot, and never makes either operation
fail. -/
theorem malformed_appointment_skipped :
    ∀ (pre post : List Appointment) (a : Appointment) (doctorId d ts : String),
      parse_time_slot a.date a.time = none →
      check_time_slot_availability (pre ++ a :: post) doctorId d ts =
        check_time_slot_availability (pre ++ post) doctorId d ts ∧
      get_available_slots (pre ++ a :: post) doctorId d =
        get_available_slots (pre ++ post) doctorId d := by
  intro pre post a doctorId d ts h
  constructor
  · unfold check_time_slot_availability
    cases parse_time_slot d ts with
    | none => rfl
    | some requested =>
      have hscan : conflictScan (pre ++ a :: post) doctorId requested =
          conflictScan (pre ++ post) doctorId requested := by
        simp [conflictScan, conflictScanStep, List.filterMap_append,
          List.filterMap_cons, h]
      simp only [hscan]
  · unfold get_available_slots
    cases parseYMD_HM (d ++ " 09:00") with
    | none => rfl
    | some startMin =>
      cases parseYMD_HM (d ++ " 17:00") with
      | none => rfl
      | some endMin =>
        have hstep : ∀ (X : List Slot),
            (if a.doctorId == doctorId then markAppointment X d a else X) = X := by
          intro X
          unfold markAppointment
          rw [h]
          simp
        simp only [List.foldl_append, List.foldl_cons, hstep]

/-- Witness for C10 at a concrete malformed stored appointment. -/
theorem malformed_appointment_skipped_witness :
    check_time_slot_availability
        [{ id := "a1", doctorId := "d1", patientId := "p1", patientName := "Pat",
           date := "not a date", time := "10:00 AM", status := "pending" }]
        "d1" "2025-11-03" "10:00 AM" =
      check_time_slot_availability [] "d1" "2025-11-03" "10:00 AM" ∧
    get_available_slots
        [{ id := "a1", doctorId := "d1", patientId := "p1", patientName := "Pat",
           date := "not a date", time := "10:00 AM", status := "pending" }]
        "d1" "2025-11-03" =
      get_available_slots [] "d1" "2025-11-03" :=
  malformed_appointment_skipped [] []
    { id := "a1", doctorId := "d1", patientId := "p1", patientName := "Pat",
      date := "not a date", time := "10:00 AM", status := "pending" }
    "d1" "2025-11-03" "10:00 AM" rfl

/-- Concatenation of strings concatenates their character lists. -/
theorem toList_append (a b : String) : (a ++ b).toList = a.toList ++ b.toList := by
  cases a
  cases b
  rfl

/-- Surrounding whitespace is removed by `strip`: trimming
`pad ++ l ++ pad'` gives the same result as trimming `l`. -/
theorem trimList_pad (l p q : List Char)
    (hp : ∀ c ∈ p, pyIsSpace c = true) (hq : ∀ c ∈ q, pyIsSpace c = true) :
    trimList (p ++ l ++ q) = trimList l := by
  unfold trimList
  rw [List.append_assoc, List.dropWhile_append_of_pos hp]
  rw [List.dropWhile_append]
  by_cases hnil : l.dropWhile pyIsSpace = []
  · have hlq : List.dropWhile pyIsSpace q = [] :=
      List.dropWhile_eq_nil_iff.mpr hq
    simp [hnil, hlq]
  · simp only [hnil, List.isEmpty_eq_true, if_false]
    rw [List.reverse_append,
      List.dropWhile_append_of_pos (by intro c hc; exact hq c (List.mem_reverse.mp hc))]

/-- C9: `parse_time_slot` succeeds exactly when the date string matches
one of the two accepted formats (`YYYY-MM-DD` or `Month DD, YYYY`) and
the time string, after stripping surrounding whitespace, matches the
12-hour `HH:MM AM/PM` pattern; it tolerates surrounding whitespace in
the time component, and on well-formed input it deterministically
returns the instant combining the parsed day and wall-clock time. -/
theorem timeslot_parse_contract :
    (∀ ds ts : String, (parse_time_slot ds ts).isSome =
        (((parseDateYMD ds).isSome || (parseDateLong ds).isSome) &&
          (parseTime12 (pyStrip ts)).isSome)) ∧
    (∀ (ds ts p q : String),
        (∀ c ∈ p.toList, pyIsSpace c = true) →
        (∀ c ∈ q.toList, pyIsSpace c = true) →
        parse_time_slot ds (p ++ ts ++ q) = parse_time_slot ds ts) ∧
    (∀ (ds ts : String) (dy tm : Nat),
        (parseDateYMD ds).orElse (fun _ => parseDateLong ds) = some dy →
        parseTime12 (pyStrip ts) = some tm →
        parse_time_slot ds ts = some (dy * 1440 + tm)) := by
  refine ⟨?_, ?_, ?_⟩
  · intro ds ts
    unfold parse_time_slot
    cases hy : parseDateYMD ds with
    | some dy => cases parseTime12 (pyStrip ts) <;> simp [hy]
    | none =>
      cases hl : parseDateLong ds with
      | some dy => cases parseTime12 (pyStrip ts) <;> simp [hy, hl]
      | none => simp [hy, hl]
  · intro ds ts p q hp hq
    have hstrip : pyStrip (p ++ ts ++ q) = pyStrip ts := by
      unfold pyStrip
      rw [toList_append, toList_append, trimList_pad ts.toList p.toList q.toList hp hq]
    unfold parse_time_slot
    rw [hstrip]
  · intro ds ts dy tm hd ht
    unfold parse_time_slot
    rw [hd, ht]

/-- Witness for C9: the long date form with whitespace-padded time
parses to the combined instant; padding the time string does not change
the result. -/
theorem timeslot_parse_contract_witness :
    parse_time_slot "2025-10-25" " 09:00 AM " = some 1065390300 ∧
    parse_time_slot "October 25, 2025" (" " ++ "09:00 AM" ++ " ") =
      parse_time_slot "October 25, 2025" "09:00 AM" :=
  ⟨timeslot_parse_contract.2.2 "2025-10-25" " 09:00 AM " 739854 540 rfl rfl,
    timeslot_parse_contract.2.1 "October 25, 2025" "09:00 AM" " " " "
      (by decide) (by decide)⟩

/-! ### Appending a suffix to a fully parsed `YYYY-MM-DD` date -/

theorem pYear_append {l t r : List Char} {y : Nat} (h : pYear l = some (y, r)) :
    pYear (l ++ t) = some (y, r ++ t) := by
  match l with
  | [] => exact absurd h (by simp [pYear])
  | [a] => exact absurd h (by simp [pYear])
  | [a, b] => exact absurd h (by simp [pYear])
  | [a, b, c] => exact absurd h (by simp [pYear])
  | a :: b :: c :: d :: rest =>
    simp only [pYear] at h
    simp only [List.cons_append, pYear]
    by_cases hd : (isDigitCh a && isDigitCh b && isDigitCh c && isDigitCh d) = true
    · simp only [hd, if_true] at h ⊢
      obtain ⟨h1, h2⟩ := Prod.mk.injEq .. ▸ Option.some.inj h
      subst h1
      subst h2
      rfl
    · simp [hd] at h

theorem pChar_append {c : Char} {l t r : List Char} (h : pChar c l = some r) :
    pChar c (l ++ t) = some (r ++ t) := by
  match l with
  | [] => exact absurd h (by simp [pChar])
  | c' :: rest =>
    simp only [pChar] at h
    simp only [List.cons_append, pChar]
    by_cases hc : c' = c
    · simp only [hc, if_true] at h ⊢
      rw [Option.some.inj h]
    · simp [hc] at h

/-- Characterization of a successful `pRun2` parse. -/
theorem pRun2_eq_some {lo hi : Nat} {l r : List Char} {v : Nat}
    (h : pRun2 lo hi l = some (v, r)) :
    l.takeWhile isDigitCh ≠ [] ∧ (l.takeWhile isDigitCh).length ≤ 2 ∧
    lo ≤ v ∧ v ≤ hi ∧ digitsVal (l.takeWhile isDigitCh) = v ∧
    l.dropWhile isDigitCh = r := by
  unfold pRun2 at h
  by_cases h0 : (l.takeWhile isDigitCh).length = 0 ∨ 2 < (l.takeWhile isDigitCh).length
  · simp only [h0, if_true] at h
    cases h
  · simp only [h0, if_false] at h
    by_cases h1 : lo ≤ digitsVal (l.takeWhile isDigitCh) ∧
        digitsVal (l.takeWhile isDigitCh) ≤ hi
    · simp only [h1, if_true] at h
      obtain ⟨hv, hr⟩ := Prod.mk.injEq .. ▸ Option.some.inj h
      push_neg at h0
      refine ⟨?_, by omega, hv ▸ h1.1, hv ▸ h1.2, hv, hr⟩
      intro hnil
      exact h0.1 (by rw [hnil]; rfl)
    · simp only [h1, if_false] at h
      cases h

/-- Reconstruction of a `pRun2` parse from its components. -/
theorem pRun2_eq_some_of {lo hi : Nat} {l r : List Char} {v : Nat}
    (hne : l.takeWhile isDigitCh ≠ [])
    (hlen : (l.takeWhile isDigitCh).length ≤ 2)
    (hlo : lo ≤ v) (hhi : v ≤ hi)
    (hval : digitsVal (l.takeWhile isDigitCh) = v)
    (hrest : l.dropWhile isDigitCh = r) :
    pRun2 lo hi l = some (v, r) := by
  unfold pRun2
  have h0 : ¬((l.takeWhile isDigitCh).length = 0 ∨ 2 < (l.takeWhile isDigitCh).length) := by
    push_neg
    constructor
    · intro hz
      exact hne (List.length_eq_zero.mp hz)
    · omega
  simp only [h0, if_false]
  simp only [hval, hrest]
  rw [if_pos ⟨hlo, hhi⟩]

/-- A digit run that stops before the end of the input is unaffected by a
suffix. -/
theorem pRun2_append_mid {lo hi : Nat} {l t r : List Char} {v : Nat}
    (h : pRun2 lo hi l = some (v, r)) (hr : r ≠ []) :
    pRun2 lo hi (l ++ t) = some (v, r ++ t) := by
  obtain ⟨hne, hlen, hlo, hhi, hval, hdrop⟩ := pRun2_eq_some h
  have hdropne : (l.dropWhile isDigitCh).isEmpty = false := by
    rw [hdrop]
    cases r with
    | nil => exact absurd rfl hr
    | cons x xs => rfl
  have htake : (l ++ t).takeWhile isDigitCh = l.takeWhile isDigitCh := by
    rw [List.takeWhile_append]
    rw [if_neg]
    intro hlenEq
    have heq : l.takeWhile isDigitCh = l :=
      (List.takeWhile_sublist _).eq_of_length hlenEq
    have hnil : l.dropWhile isDigitCh = [] :=
      List.dropWhile_eq_nil_iff.mpr (List.takeWhile_eq_self_iff.mp heq)
    rw [hnil] at hdropne
    simp at hdropne
  have hdrop2 : (l ++ t).dropWhile isDigitCh = r ++ t := by
    rw [List.dropWhile_append, hdropne]
    simp [hdrop]
  exact pRun2_eq_some_of (htake ▸ hne) (htake ▸ hlen) hlo hhi (htake ▸ hval) hdrop2

/-- A digit run that consumes the whole input is unaffected by a suffix
whose first character is not a digit. -/
theorem pRun2_append_end {lo hi : Nat} {l t : List Char} {v : Nat}
    (h : pRun2 lo hi l = some (v, []))
    (ht : ∀ c, t.head? = some c → isDigitCh c = false) :
    pRun2 lo hi (l ++ t) = some (v, t) := by
  obtain ⟨hne, hlen, hlo, hhi, hval, hdrop⟩ := pRun2_eq_some h
  have hall : ∀ c ∈ l, isDigitCh c = true := List.dropWhile_eq_nil_iff.mp hdrop
  have htakeT : t.takeWhile isDigitCh = [] := by
    cases t with
    | nil => rfl
    | cons x xs =>
      have hx := ht x rfl
      simp [List.takeWhile_cons, hx]
  have hdropT : t.dropWhile isDigitCh = t := by
    cases t with
    | nil => rfl
    | cons x xs =>
      have hx := ht x rfl
      simp [List.dropWhile_cons, hx]
  have htake : (l ++ t).takeWhile isDigitCh = l.takeWhile isDigitCh := by
    rw [List.takeWhile_append_of_pos hall, htakeT, List.append_nil]
    have hsplit := List.takeWhile_append_dropWhile isDigitCh l
    rw [hdrop, List.append_nil] at hsplit
    rw [hsplit]
  have hdrop2 : (l ++ t).dropWhile isDigitCh = t := by
    rw [List.dropWhile_append_of_pos hall, hdropT]
  exact pRun2_eq_some_of (htake ▸ hne) (htake ▸ hlen) hlo hhi (htake ▸ hval) hdrop2

/-- A fully parsed `YYYY-MM-DD` prefix followed by a suffix starting with
a non-digit parses to the same day number with the suffix left over. -/
theorem parseYMDCore_append {l t : List Char} {v : Nat}
    (h : parseYMDCore l = some (v, []))
    (ht : ∀ c, t.head? = some c → isDigitCh c = false) :
    parseYMDCore (l ++ t) = some (v, t) := by
  unfold parseYMDCore at h ⊢
  cases hy : pYear l with
  | none => simp only [hy] at h; cases h
  | some yr =>
    obtain ⟨y, r1⟩ := yr
    simp only [hy] at h
    simp only [pYear_append hy]
    cases hc1 : pChar '-' r1 with
    | none => simp only [hc1] at h; cases h
    | some r2 =>
      simp only [hc1] at h
      simp only [pChar_append hc1]
      cases hm : pRun2 1 12 r2 with
      | none => simp only [hm] at h; cases h
      | some mr =>
        obtain ⟨m, r3⟩ := mr
        simp only [hm] at h
        cases hc2 : pChar '-' r3 with
        | none => simp only [hc2] at h; cases h
        | some r4 =>
          simp only [hc2] at h
          cases hd : pRun2 1 31 r4 with
          | none => simp only [hd] at h; cases h
          | some dr =>
            obtain ⟨d, r5⟩ := dr
            simp only [hd] at h
            by_cases hv : validDate y m d = true
            · simp only [hv, if_true] at h
              obtain ⟨hdays, hr5⟩ := Prod.mk.injEq .. ▸ Option.some.inj h
              subst hr5
              simp only [pRun2_append_mid hm (by
                intro hr3
                rw [hr3] at hc2
                exact absurd hc2 (by simp [pChar]))]
              simp only [pChar_append hc2]
              simp only [pRun2_append_end hd ht]
              simp only [hv, if_true, hdays]
            · simp only [hv, if_false] at h
              cases h

/-- `parseDateYMD` succeeding means the core parser consumes the whole
string. -/
theorem parseYMDCore_of_parseDateYMD {d : String} {dy : Nat}
    (h : parseDateYMD d = some dy) : parseYMDCore d.toList = some (dy, []) := by
  unfold parseDateYMD at h
  cases hc : parseYMDCore d.toList with
  | none => simp only [hc] at h; cases h
  | some pr =>
    obtain ⟨days, r⟩ := pr
    simp only [hc] at h
    cases r with
    | nil => rw [Option.some.inj h]
    | cons x xs => cases h

/-- The working-window bounds computed by `get_available_slots` for a
canonical `YYYY-MM-DD` date. -/
theorem parseYMD_HM_window {d : String} {dy : Nat}
    (h : parseDateYMD d = some dy) :
    parseYMD_HM (d ++ " 09:00") = some (dy * 1440 + 540) ∧
    parseYMD_HM (d ++ " 17:00") = some (dy * 1440 + 1020) := by
  have hcore := parseYMDCore_of_parseDateYMD h
  constructor
  · unfold parseYMD_HM
    rw [toList_append]
    simp only [parseYMDCore_append (t := (" 09:00" : String).toList) hcore (by decide)]
    simp only [show pSpaces1 ((" 09:00" : String).toList) =
      some (("09:00" : String).toList) from rfl]
    simp only [show pRun2 0 23 (("09:00" : String).toList) =
      some (9, (":00" : String).toList) from rfl]
    simp only [show pChar ':' ((":00" : String).toList) =
      some (("00" : String).toList) from rfl]
    simp only [show pRun2 0 59 (("00" : String).toList) = some (0, []) from rfl]
  · unfold parseYMD_HM
    rw [toList_append]
    simp only [parseYMDCore_append (t := (" 17:00" : String).toList) hcore (by decide)]
    simp only [show pSpaces1 ((" 17:00" : String).toList) =
      some (("17:00" : String).toList) from rfl]
    simp only [show pRun2 0 23 (("17:00" : String).toList) =
      some (17, (":00" : String).toList) from rfl]
    simp only [show pChar ':' ((":00" : String).toList) =
      some (("00" : String).toList) from rfl]
    simp only [show pRun2 0 59 (("00" : String).toList) = some (0, []) from rfl]

/-! ### The marking loop as a per-slot predicate -/

/-- One marking pass over the slot list is the elementwise update by
`blocksSlot`. -/
theorem markStep_eq_map (doctorId d : String) (a : Appointment) (slots : List Slot) :
    (if a.doctorId == doctorId then markAppointment slots d a else slots) =
      slots.map (fun s =>
        if blocksSlot doctorId d a s.dt then
          { s with available := false, appointment_id := some a.id, status := some a.status }
        else s) := by
  cases hd : a.doctorId == doctorId with
  | false => simp [blocksSlot, hd]
  | true =>
    unfold markAppointment
    cases hs : isSkippedStatus a.status with
    | true => simp [blocksSlot, hd, hs]
    | false =>
      cases hsub : (strContains d a.date || strContains a.date d) with
      | false => simp [blocksSlot, hd, hs, hsub]
      | true =>
        cases hp : parse_time_slot a.date a.time with
        | none => simp [blocksSlot, hd, hs, hsub, hp]
        | some adt => simp [blocksSlot, hd, hs, hsub, hp]

/-- After the whole marking fold, a slot is available iff it started
available and no appointment blocks it. -/
theorem foldMark_getElem_avail (doctorId d : String) :
    ∀ (appts : List Appointment) (init : List Slot) (i : Nat),
      ((appts.foldl
          (fun sl a => if a.doctorId == doctorId then markAppointment sl d a else sl)
          init)[i]?).map (·.available) =
        (init[i]?).map (fun s =>
          s.available && !(appts.any fun a => blocksSlot doctorId d a s.dt)) := by
  intro appts
  induction appts with
  | nil =>
    intro init i
    simp
  | cons a rest ih =>
    intro init i
    rw [List.foldl_cons, markStep_eq_map, ih, List.getElem?_map]
    cases h : init[i]? with
    | none => rfl
    | some s =>
      simp only [Option.map_some']
      cases hb : blocksSlot doctorId d a s.dt <;> simp [hb]

/-- The marking fold never changes a slot's displayed time. -/
theorem foldMark_getElem_time (doctorId d : String) :
    ∀ (appts : List Appointment) (init : List Slot) (i : Nat),
      ((appts.foldl
          (fun sl a => if a.doctorId == doctorId then markAppointment sl d a else sl)
          init)[i]?).map (·.time) = (init[i]?).map (·.time) := by
  intro appts
  induction appts with
  | nil =>
    intro init i
    rfl
  | cons a rest ih =>
    intro init i
    rw [List.foldl_cons, markStep_eq_map, ih, List.getElem?_map]
    cases h : init[i]? with
    | none => rfl
    | some s =>
      simp only [Option.map_some']
      cases hb : blocksSlot doctorId d a s.dt <;> simp [hb]

/-- A scan step yields nothing exactly when the appointment does not
block the requested instant. -/
theorem conflictScanStep_none_iff (doctorId : String) (req : Nat) (a : Appointment) :
    conflictScanStep doctorId req a = none ↔ checkBlocks doctorId req a = false := by
  unfold conflictScanStep checkBlocks
  cases hd : a.doctorId == doctorId with
  | false => simp [hd]
  | true =>
    cases hs : isSkippedStatus a.status with
    | true => simp [hs]
    | false =>
      cases hp : parse_time_slot a.date a.time with
      | none => simp [hp]
      | some slot =>
        cases hc : is_time_slot_conflict req slot 30 <;> simp [hp, hc]

/-- The conflict list is empty iff no stored appointment blocks the
requested instant. -/
theorem conflictScan_isEmpty (doctorId : String) (req : Nat) :
    ∀ appts : List Appointment,
      (conflictScan appts doctorId req).isEmpty =
        !(appts.any fun a => checkBlocks doctorId req a) := by
  intro appts
  induction appts with
  | nil => rfl
  | cons a rest ih =>
    unfold conflictScan at ih ⊢
    rw [List.filterMap_cons]
    cases hstep : conflictScanStep doctorId req a with
    | none =>
      have hbf : checkBlocks doctorId req a = false :=
        (conflictScanStep_none_iff doctorId req a).mp hstep
      simp [ih, hbf]
    | some c =>
      have hbt : checkBlocks doctorId req a = true := by
        cases hbc : checkBlocks doctorId req a with
        | true => rfl
        | false =>
          rw [(conflictScanStep_none_iff doctorId req a).mpr hbc] at hstep
          cases hstep
      simp [hbt]

theorem any_congr_mem {α : Type} {l : List α} {f g : α → Bool}
    (h : ∀ a ∈ l, f a = g a) : l.any f = l.any g := by
  induction l with
  | nil => rfl
  | cons a t ih =>
    simp only [List.any_cons, h a (List.mem_cons_self a t),
      ih fun b hb => h b (List.mem_cons_of_mem a hb)]

/-- `strftime("%I:%M %p")` only looks at the minute of day. -/
theorem fmtTime12_mod (dy m : Nat) : fmtTime12 (dy * 1440 + m) = fmtTime12 m := by
  have h : (dy * 1440 + m) % 1440 = m % 1440 := by omega
  unfold fmtTime12
  rw [h]

theorem genSlots_getElem (s e i : Nat) (h : i < (e - s + 29) / 30) :
    (genSlots s e)[i]? =
      some { time := fmtTime12 (s + 30 * i), dt := s + 30 * i, available := true } := by
  simp [genSlots, List.getElem?_map, List.getElem?_range, h]

/-- Every generated slot's displayed time parses back to its own start
minute (the sixteen 09:00–16:30 half-hour slots). -/
theorem slot_time_roundtrip :
    ∀ j < 16, parseTime12 (pyStrip (fmtTime12 (540 + 30 * j))) = some (540 + 30 * j) := by
  decide

/-- C2 counterexample: the two views disagree when a stored appointment's
date is in the long format: a pending appointment stored as
`October 25, 2025 · 09:00 AM` makes `check-availability` report the
`2025-10-25` 09:00 slot unavailable, while `available-slots` for
`2025-10-25` — whose substring date filter skips the long-format date —
reports every slot of that day available. -/
theorem availability_vs_listing_cex :
    check_time_slot_availability
        [{ id := "a1", doctorId := "d1", patientId := "p1", patientName := "Pat",
           date := "October 25, 2025", time := "09:00 AM", status := "pending" }]
        "d1" "2025-10-25" "09:00 AM" =
      .ok ⟨false, [⟨"a1", "Pat", "09:00 AM", "pending"⟩]⟩ ∧
    ((get_available_slots
        [{ id := "a1", doctorId := "d1", patientId := "p1", patientName := "Pat",
           date := "October 25, 2025", time := "09:00 AM", status := "pending" }]
        "d1" "2025-10-25").toOption.map fun r => r.slots.map (·.available)) =
      some (List.replicate 16 true) := by
  constructor
  · rfl
  · rfl

/-- C2 (amended): the availability check and the slot listing agree on
every generated slot whenever every relevant stored appointment (same
doctor, not cancelled/rejected) passes the listing's substring date
filter against the queried `YYYY-MM-DD` date — in particular whenever
all stored dates use the same `YYYY-MM-DD` form; both then apply the same
overlap predicate to the same appointment set.  (Without that proviso the
listing's substring filter can skip appointments the check still
reports, see the counterexample.) -/
theorem availability_and_listing_agree :
    ∀ (appts : List Appointment) (doctorId d : String) (dy i : Nat),
      parseDateYMD d = some dy →
      i < 16 →
      (∀ a ∈ appts, (a.doctorId == doctorId) = true →
        isSkippedStatus a.status = false →
        (strContains d a.date || strContains a.date d) = true) →
      ∃ (res : SlotsResult) (chk : AvailabilityResult),
        get_available_slots appts doctorId d = .ok res ∧
        check_time_slot_availability appts doctorId d (fmtTime12 (540 + 30 * i)) =
          .ok chk ∧
        res.slots[i]?.map (·.time) = some (fmtTime12 (540 + 30 * i)) ∧
        res.slots[i]?.map (·.available) = some chk.available := by
  intro appts doctorId d dy i hd hi H
  obtain ⟨h9, h17⟩ := parseYMD_HM_window hd
  have hparse : parse_time_slot d (fmtTime12 (540 + 30 * i)) =
      some (dy * 1440 + (540 + 30 * i)) := by
    unfold parse_time_slot
    simp only [hd]
    simp only [show (some dy).orElse (fun _ => parseDateLong d) = some dy from rfl]
    simp only [slot_time_roundtrip i hi]
  have hcount : (dy * 1440 + 1020 - (dy * 1440 + 540) + 29) / 30 = 16 := by
    have h480 : dy * 1440 + 1020 - (dy * 1440 + 540) = 480 := by omega
    rw [h480]
  have hslot : (genSlots (dy * 1440 + 540) (dy * 1440 + 1020))[i]? =
      some { time := fmtTime12 (540 + 30 * i), dt := dy * 1440 + 540 + 30 * i,
             available := true } := by
    rw [genSlots_getElem _ _ i (by rw [hcount]; exact hi)]
    have harith : dy * 1440 + 540 + 30 * i = dy * 1440 + (540 + 30 * i) := by omega
    rw [harith, fmtTime12_mod]
  refine ⟨{ date := d, doctor_id := doctorId,
            slots := ((appts.foldl
              (fun sl a => if a.doctorId == doctorId then markAppointment sl d a else sl)
              (genSlots (dy * 1440 + 540) (dy * 1440 + 1020))).map slotToView),
            total_slots := ((appts.foldl
              (fun sl a => if a.doctorId == doctorId then markAppointment sl d a else sl)
              (genSlots (dy * 1440 + 540) (dy * 1440 + 1020))).map slotToView).length,
            available_slots := (((appts.foldl
              (fun sl a => if a.doctorId == doctorId then markAppointment sl d a else sl)
              (genSlots (dy * 1440 + 540) (dy * 1440 + 1020))).map slotToView).filter
                (·.available)).length },
        if (conflictScan appts doctorId (dy * 1440 + (540 + 30 * i))).isEmpty
          then ⟨true, []⟩
          else ⟨false, conflictScan appts doctorId (dy * 1440 + (540 + 30 * i))⟩,
        ?_, ?_, ?_, ?_⟩
  · unfold get_available_slots
    simp only [h9, h17]
  · unfold check_time_slot_availability
    simp only [hparse]
    cases hE : (conflictScan appts doctorId (dy * 1440 + (540 + 30 * i))).isEmpty <;>
      simp [hE]
  · simp only [List.getElem?_map]
    have := foldMark_getElem_time doctorId d appts
      (genSlots (dy * 1440 + 540) (dy * 1440 + 1020)) i
    rw [show (Option.map slotToView ((appts.foldl
        (fun sl a => if a.doctorId == doctorId then markAppointment sl d a else sl)
        (genSlots (dy * 1440 + 540) (dy * 1440 + 1020)))[i]?)).map (·.time) =
        ((appts.foldl
          (fun sl a => if a.doctorId == doctorId then markAppointment sl d a else sl)
          (genSlots (dy * 1440 + 540) (dy * 1440 + 1020)))[i]?).map (·.time) from by
      cases ((appts.foldl
        (fun sl a => if a.doctorId == doctorId then markAppointment sl d a else sl)
        (genSlots (dy * 1440 + 540) (dy * 1440 + 1020)))[i]?) <;> rfl]
    rw [this, hslot]
    rfl
  · simp only [List.getElem?_map]
    have havail := foldMark_getElem_avail doctorId d appts
      (genSlots (dy * 1440 + 540) (dy * 1440 + 1020)) i
    rw [show (Option.map slotToView ((appts.foldl
        (fun sl a => if a.doctorId == doctorId then markAppointment sl d a else sl)
        (genSlots (dy * 1440 + 540) (dy * 1440 + 1020)))[i]?)).map (·.available) =
        ((appts.foldl
          (fun sl a => if a.doctorId == doctorId then markAppointment sl d a else sl)
          (genSlots (dy * 1440 + 540) (dy * 1440 + 1020)))[i]?).map (·.available) from by
      cases ((appts.foldl
        (fun sl a => if a.doctorId == doctorId then markAppointment sl d a else sl)
        (genSlots (dy * 1440 + 540) (dy * 1440 + 1020)))[i]?) <;> rfl]
    rw [havail, hslot]
    simp only [Option.map_some']
    have hpt : ∀ a ∈ appts,
        blocksSlot doctorId d a (dy * 1440 + 540 + 30 * i) =
          checkBlocks doctorId (dy * 1440 + (540 + 30 * i)) a := by
      intro a ha
      have harith : dy * 1440 + 540 + 30 * i = dy * 1440 + (540 + 30 * i) := by omega
      rw [harith]
      unfold blocksSlot checkBlocks
      cases hd1 : a.doctorId == doctorId with
      | false => simp [hd1]
      | true =>
        cases hs1 : isSkippedStatus a.status with
        | true => simp [hs1]
        | false => simp [H a ha hd1 hs1]
    rw [any_congr_mem hpt]
    rw [← conflictScan_isEmpty doctorId (dy * 1440 + (540 + 30 * i)) appts]
    cases hE : (conflictScan appts doctorId (dy * 1440 + (540 + 30 * i))).isEmpty <;>
      simp [hE]

/-- Witness for C2 at a concrete store: one pending `2025-10-25 09:00 AM`
appointment, the `2025-10-25` listing and the 09:00 availability check
agree (slot 0 unavailable). -/
theorem availability_and_listing_agree_witness :
    ∃ (res : SlotsResult) (chk : AvailabilityResult),
      get_available_slots
          [{ id := "a1", doctorId := "d1", patientId := "p1", patientName := "Pat",
             date := "2025-10-25", time := "09:00 AM", status := "pending" }]
          "d1" "2025-10-25" = .ok res ∧
      check_time_slot_availability
          [{ id := "a1", doctorId := "d1", patientId := "p1", patientName := "Pat",
             date := "2025-10-25", time := "09:00 AM", status := "pending" }]
          "d1" "2025-10-25" (fmtTime12 (540 + 30 * 0)) = .ok chk ∧
      res.slots[0]?.map (·.time) = some (fmtTime12 (540 + 30 * 0)) ∧
      res.slots[0]?.map (·.available) = some chk.available :=
  availability_and_listing_agree
    [{ id := "a1", doctorId := "d1", patientId := "p1", patientName := "Pat",
       date := "2025-10-25", time := "09:00 AM", status := "pending" }]
    "d1" "2025-10-25" 739854 0 rfl (by norm_num) (by decide)

end EBooklet
